import Mathlib

/-!
Shallow embedding of `src/actions/HomeAssistantAction/dial_action.py`
(class `DialAction`) from the de_gensyn_HomeAssistantPlugin repository.

The embedding models:
* the four-field dial configuration held as instance attributes;
* the persisted settings dictionary (`get_settings` / `set_settings`),
  modelled as an association list with CPython dict update semantics
  (update in place if the key exists, else append);
* `event_callback`, which dispatches the three dial events to at most one
  backend `call_service` invocation, with Python's
  `str.split('.', 1)` tuple-unpacking semantics (raising `ValueError`
  when no separator is present) and the surrounding
  `except ValueError` / `except Exception` handlers;
* the four per-field change reactions and `_save_dial_settings`.

`print` logging is not modelled (no claim concerns log content).
The backend invoker is a parameter `invoker : ServiceCall → Option PyExc`
describing, for each issued call, which exception (if any) it raises.
-/

namespace DialActionModel

/-- A Python value stored in a settings dict or a service-data dict:
the code only ever stores strings and integers. -/
inductive Val where
  | str (s : String)
  | int (i : Int)
deriving DecidableEq

/-- A settings dictionary, as an association list with dict semantics. -/
abbrev Settings := List (String × Val)

/-- The opaque event payload `data : dict` delivered by the host. -/
abbrev Payload := List (String × Val)

/-- Dict read: first entry with the key, if any. -/
def getSetting : Settings → String → Option Val
  | [], _ => none
  | p :: ps, k => if p.1 = k then some p.2 else getSetting ps k

/-- Whether the dict holds the key. -/
def hasKey : Settings → String → Bool
  | [], _ => false
  | p :: ps, k => p.1 = k || hasKey ps k

/-- Dict write `settings[k] = v`: replace in place when the key exists
(CPython keeps insertion order), else append at the end. -/
def setSetting (s : Settings) (k : String) (v : Val) : Settings :=
  if hasKey s k then s.map (fun p => if p.1 = k then (k, v) else p)
  else s ++ [(k, v)]

def SETTING_DIAL_ENTITY_ID : String := "dial_entity_id"

def SETTING_DIAL_STEP_SIZE : String := "dial_step_size"

def SETTING_DIAL_TURN_SERVICE : String := "dial_turn_service"

def SETTING_DIAL_PRESS_SERVICE : String := "dial_press_service"

/-- The four configuration attributes of a `DialAction` instance. -/
structure DialAction where
  dial_entity_id : String
  dial_step_size : Int
  dial_turn_service : String
  dial_press_service : String
deriving DecidableEq

/-- `settings.get(k, dflt)` read of a string-typed attribute; a value of
the wrong Python type is not representable in the typed attribute, so the
default stands in for it. -/
def getStrSetting (s : Settings) (k : String) (dflt : String) : String :=
  match getSetting s k with
  | some (.str v) => v
  | _ => dflt

/-- `settings.get(k, dflt)` read of an integer-typed attribute. -/
def getIntSetting (s : Settings) (k : String) (dflt : Int) : Int :=
  match getSetting s k with
  | some (.int v) => v
  | _ => dflt

/-- `DialAction._load_dial_settings`: populate the four attributes from
the persisted settings, with the documented defaults. -/
def _load_dial_settings (settings : Settings) : DialAction :=
  { dial_entity_id := getStrSetting settings SETTING_DIAL_ENTITY_ID ""
    dial_step_size := getIntSetting settings SETTING_DIAL_STEP_SIZE 1
    dial_turn_service := getStrSetting settings SETTING_DIAL_TURN_SERVICE ""
    dial_press_service := getStrSetting settings SETTING_DIAL_PRESS_SERVICE "" }

/-- `DialAction._save_dial_settings`: read the current settings dict, set
the four dial keys to the in-memory attribute values, and write the whole
dict back through `set_settings`.  Returns the written dict. -/
def _save_dial_settings (a : DialAction) (settings : Settings) : Settings :=
  let s1 := setSetting settings SETTING_DIAL_ENTITY_ID (.str a.dial_entity_id)
  let s2 := setSetting s1 SETTING_DIAL_STEP_SIZE (.int a.dial_step_size)
  let s3 := setSetting s2 SETTING_DIAL_TURN_SERVICE (.str a.dial_turn_service)
  setSetting s3 SETTING_DIAL_PRESS_SERVICE (.str a.dial_press_service)

/-- `_on_dial_entity_id_changed`: overwrite the attribute with the row
text, then persist.  Result: the new state and the list of
`set_settings` writes performed by the reaction. -/
def _on_dial_entity_id_changed (a : DialAction) (persisted : Settings)
    (text : String) : DialAction × List Settings :=
  let a2 := { a with dial_entity_id := text }
  (a2, [_save_dial_settings a2 persisted])

/-- `_on_dial_step_size_changed`: overwrite the attribute with
`int(adjustment.get_value())`, then persist. -/
def _on_dial_step_size_changed (a : DialAction) (persisted : Settings)
    (value : Int) : DialAction × List Settings :=
  let a2 := { a with dial_step_size := value }
  (a2, [_save_dial_settings a2 persisted])

/-- `_on_dial_turn_service_changed`: overwrite the attribute with the row
text, then persist. -/
def _on_dial_turn_service_changed (a : DialAction) (persisted : Settings)
    (text : String) : DialAction × List Settings :=
  let a2 := { a with dial_turn_service := text }
  (a2, [_save_dial_settings a2 persisted])

/-- `_on_dial_press_service_changed`: overwrite the attribute with the
row text, then persist. -/
def _on_dial_press_service_changed (a : DialAction) (persisted : Settings)
    (text : String) : DialAction × List Settings :=
  let a2 := { a with dial_press_service := text }
  (a2, [_save_dial_settings a2 persisted])

/-- The dial input events: `Input.Dial.Events.DOWN`, `TURN_CW`,
`TURN_CCW`, and any other input event (tagged opaquely). -/
inductive DialEvent where
  | down
  | turnCW
  | turnCCW
  | other (tag : Nat)
deriving DecidableEq

/-- A Python exception: `ValueError` from tuple unpacking, or any other
exception (such as one raised by the backend call), with a message. -/
inductive PyExc where
  | valueError
  | exc (msg : String)
deriving DecidableEq

/-- One outbound `self.plugin_base.backend.call_service(entity_id,
service_name, service_data)` invocation. -/
structure ServiceCall where
  entity_id : String
  service_name : String
  service_data : List (String × Val)
deriving DecidableEq

/-- Read a key out of a call's `service_data` dict. -/
def getParam (c : ServiceCall) (k : String) : Option Val :=
  getSetting c.service_data k

/-- What one `event_callback` run did, as observed by its collaborators:
the backend calls issued (in order), the `set_settings` writes performed,
the delegation to `super().event_callback` (with its arguments) if any,
and the exception escaping to the caller, if any. -/
structure EventResult where
  calls : List ServiceCall
  writes : List Settings
  delegated : Option (DialEvent × Payload)
  raised : Option PyExc
deriving DecidableEq

/-- Python's `s.split('.', 1)` tuple unpacking on a character list:
`some (before, after)` splits at the first separator; `none` when the
separator is absent, in which case the two-name unpacking raises
`ValueError`. -/
def splitFirst (sep : Char) : List Char → Option (List Char × List Char)
  | [] => none
  | c :: cs =>
    if c = sep then some ([], cs)
    else
      match splitFirst sep cs with
      | some (a, b) => some (c :: a, b)
      | none => none

/-- `s.split(sep, 1)` unpacked into two strings, or `none` (ValueError). -/
def splitOnce (s : String) (sep : Char) : Option (String × String) :=
  match splitFirst sep s.toList with
  | some (a, b) => some (String.mk a, String.mk b)
  | none => none

/-- The body of one `try:` block: unpack
`_domain, service_name = service_str.split('.', 1)` (which may raise
`ValueError`), build the service data, and issue the backend call (which
may raise whatever the invoker raises).  Returns the calls issued and the
exception escaping the block, if any. -/
def attempt_service (entity service_str : String)
    (data : List (String × Val)) (invoker : ServiceCall → Option PyExc) :
    List ServiceCall × Option PyExc :=
  match splitOnce service_str '.' with
  | none => ([], some .valueError)
  | some p =>
    let c : ServiceCall :=
      { entity_id := entity, service_name := p.2, service_data := data }
    ([c], invoker c)

/-- The `service_name` sent for a well-formed service string: the suffix
of the string after its first dot. -/
def afterFirstDot (s : String) : String :=
  String.mk ((s.toList.dropWhile (· ≠ '.')).drop 1)

/-- A run that issued nothing and raised nothing. -/
def noopResult : EventResult :=
  { calls := [], writes := [], delegated := none, raised := none }

/-- `DialAction.event_callback(event, data)`.  Mirrors the source: an
early return when `dial_entity_id` is falsy; then a dispatch on the three
dial events, each guarded by emptiness of the relevant service string and
wrapped in `try / except ValueError / except Exception` so that neither a
malformed service string nor an invoker failure escapes; any other event
is delegated to `super().event_callback(event, data)` unchanged.  Returns
the (unmodified) instance state and the observed effects. -/
def event_callback (a : DialAction) (event : DialEvent) (data : Payload)
    (invoker : ServiceCall → Option PyExc) : DialAction × EventResult :=
  if a.dial_entity_id = "" then
    (a, noopResult)
  else
    match event with
    | .down =>
      if a.dial_press_service = "" then (a, noopResult)
      else
        let r := attempt_service a.dial_entity_id a.dial_press_service
          [("entity_id", .str a.dial_entity_id)] invoker
        -- both except clauses catch: nothing in r.2 escapes
        (a, { calls := r.1, writes := [], delegated := none, raised := none })
    | .turnCW =>
      if a.dial_turn_service = "" then (a, noopResult)
      else
        let r := attempt_service a.dial_entity_id a.dial_turn_service
          [("entity_id", .str a.dial_entity_id),
           ("brightness_step_pct", .int a.dial_step_size)] invoker
        (a, { calls := r.1, writes := [], delegated := none, raised := none })
    | .turnCCW =>
      if a.dial_turn_service = "" then (a, noopResult)
      else
        let r := attempt_service a.dial_entity_id a.dial_turn_service
          [("entity_id", .str a.dial_entity_id),
           ("brightness_step_pct", .int (-a.dial_step_size))] invoker
        (a, { calls := r.1, writes := [], delegated := none, raised := none })
    | .other tag =>
      (a, { calls := [], writes := [], delegated := some (.other tag, data),
            raised := none })

/-! ### Characterizing `split('.', 1)` -/

/-- When the separator occurs, `splitFirst` yields the prefix before the
first occurrence and the suffix after it. -/
theorem splitFirst_eq_of_mem (sep : Char) (l : List Char) (h : sep ∈ l) :
    splitFirst sep l =
      some (l.takeWhile (· ≠ sep), (l.dropWhile (· ≠ sep)).drop 1) := by
  induction l with
  | nil => cases h
  | cons c cs ih =>
    by_cases hc : c = sep
    · subst hc
      simp [splitFirst]
    · have hmem : sep ∈ cs := by
        rcases List.mem_cons.mp h with h1 | h1
        · exact absurd h1.symm hc
        · exact h1
      simp [splitFirst, hc, ih hmem]

/-- When the separator is absent, `split('.', 1)` yields a single piece
and the two-name unpacking raises `ValueError`. -/
theorem splitFirst_eq_none_of_not_mem (sep : Char) (l : List Char)
    (h : sep ∉ l) : splitFirst sep l = none := by
  induction l with
  | nil => rfl
  | cons c cs ih =>
    have hc : ¬ c = sep := by
      intro he
      exact h (by simp [he])
    have hcs : sep ∉ cs := fun hm => h (List.mem_cons_of_mem c hm)
    simp [splitFirst, hc, ih hcs]

theorem splitOnce_eq_of_mem (s : String) (sep : Char) (h : sep ∈ s.toList) :
    splitOnce s sep =
      some (String.mk (s.toList.takeWhile (· ≠ sep)),
            String.mk ((s.toList.dropWhile (· ≠ sep)).drop 1)) := by
  unfold splitOnce
  rw [splitFirst_eq_of_mem sep s.toList h]

theorem splitOnce_eq_none (s : String) (sep : Char) (h : sep ∉ s.toList) :
    splitOnce s sep = none := by
  unfold splitOnce
  rw [splitFirst_eq_none_of_not_mem sep s.toList h]

theorem ne_empty_of_mem_toList (s : String) (c : Char) (h : c ∈ s.toList) :
    s ≠ "" := by
  intro he
  rw [he] at h
  simp at h

/-! ### Helper lemmas: the calls issued on each handled branch -/

theorem down_calls_eq (a : DialAction) (data : Payload)
    (invoker : ServiceCall → Option PyExc)
    (h1 : a.dial_entity_id ≠ "") (h2 : '.' ∈ a.dial_press_service.toList) :
    (event_callback a .down data invoker).2.calls =
      [{ entity_id := a.dial_entity_id,
         service_name := afterFirstDot a.dial_press_service,
         service_data := [("entity_id", .str a.dial_entity_id)] }] := by
  have hne := ne_empty_of_mem_toList _ _ h2
  simp [event_callback, h1, hne, attempt_service,
    splitOnce_eq_of_mem _ _ h2, afterFirstDot]

theorem turnCW_calls_eq (a : DialAction) (data : Payload)
    (invoker : ServiceCall → Option PyExc)
    (h1 : a.dial_entity_id ≠ "") (h2 : '.' ∈ a.dial_turn_service.toList) :
    (event_callback a .turnCW data invoker).2.calls =
      [{ entity_id := a.dial_entity_id,
         service_name := afterFirstDot a.dial_turn_service,
         service_data :=
           [("entity_id", .str a.dial_entity_id),
            ("brightness_step_pct", .int a.dial_step_size)] }] := by
  have hne := ne_empty_of_mem_toList _ _ h2
  simp [event_callback, h1, hne, attempt_service,
    splitOnce_eq_of_mem _ _ h2, afterFirstDot]

theorem turnCCW_calls_eq (a : DialAction) (data : Payload)
    (invoker : ServiceCall → Option PyExc)
    (h1 : a.dial_entity_id ≠ "") (h2 : '.' ∈ a.dial_turn_service.toList) :
    (event_callback a .turnCCW data invoker).2.calls =
      [{ entity_id := a.dial_entity_id,
         service_name := afterFirstDot a.dial_turn_service,
         service_data :=
           [("entity_id", .str a.dial_entity_id),
            ("brightness_step_pct", .int (-a.dial_step_size))] }] := by
  have hne := ne_empty_of_mem_toList _ _ h2
  simp [event_callback, h1, hne, attempt_service,
    splitOnce_eq_of_mem _ _ h2, afterFirstDot]

/-! ### Claims -/

/-- C1: for every configuration with non-empty `entity_id`, a
`turn_service` containing at least one dot, and any integer `step_size`
(unclamped), `event_callback` on `TURN_CW` issues exactly one backend
call, with the entity id, the service name equal to the substring of
`turn_service` after the first dot, and parameters
`entity_id` / `brightness_step_pct = step_size`. -/
theorem c1_turn_cw_invokes (a : DialAction) (data : Payload)
    (invoker : ServiceCall → Option PyExc)
    (h1 : a.dial_entity_id ≠ "") (h2 : '.' ∈ a.dial_turn_service.toList) :
    (event_callback a .turnCW data invoker).2.calls =
      [{ entity_id := a.dial_entity_id,
         service_name := afterFirstDot a.dial_turn_service,
         service_data :=
           [("entity_id", .str a.dial_entity_id),
            ("brightness_step_pct", .int a.dial_step_size)] }] :=
  turnCW_calls_eq a data invoker h1 h2

/-- Witness for C1, at the spec's concrete example (including an
out-of-range step size, which the core does not clamp). -/
theorem c1_turn_cw_invokes_witness :
    (event_callback ⟨"light.office", 250, "light.turn_on", ""⟩ .turnCW []
        (fun _ => none)).2.calls =
      [{ entity_id := "light.office", service_name := "turn_on",
         service_data :=
           [("entity_id", .str "light.office"),
            ("brightness_step_pct", .int 250)] }] :=
  c1_turn_cw_invokes ⟨"light.office", 250, "light.turn_on", ""⟩ []
    (fun _ => none) (by decide) (by decide)

/-- C2: on the same configuration, the `TURN_CCW` call is identical to
the `TURN_CW` call except that `brightness_step_pct` is negated. -/
theorem c2_ccw_negates_cw (a : DialAction) (data : Payload)
    (invoker : ServiceCall → Option PyExc)
    (h1 : a.dial_entity_id ≠ "") (h2 : '.' ∈ a.dial_turn_service.toList) :
    ∃ cw ccw : ServiceCall,
      (event_callback a .turnCW data invoker).2.calls = [cw] ∧
      (event_callback a .turnCCW data invoker).2.calls = [ccw] ∧
      ccw.entity_id = cw.entity_id ∧
      ccw.service_name = cw.service_name ∧
      ∃ n : Int,
        getParam cw "brightness_step_pct" = some (.int n) ∧
        getParam ccw "brightness_step_pct" = some (.int (-n)) := by
  refine ⟨_, _, turnCW_calls_eq a data invoker h1 h2,
    turnCCW_calls_eq a data invoker h1 h2, rfl, rfl, a.dial_step_size,
    ?_, ?_⟩ <;> simp [getParam, getSetting]

/-- Witness for C2 at the spec's concrete example with step size 5. -/
theorem c2_ccw_negates_cw_witness :
    ∃ cw ccw : ServiceCall,
      (event_callback ⟨"light.office", 5, "light.turn_on", ""⟩ .turnCW []
          (fun _ => none)).2.calls = [cw] ∧
      (event_callback ⟨"light.office", 5, "light.turn_on", ""⟩ .turnCCW []
          (fun _ => none)).2.calls = [ccw] ∧
      ccw.entity_id = cw.entity_id ∧
      ccw.service_name = cw.service_name ∧
      ∃ n : Int,
        getParam cw "brightness_step_pct" = some (.int n) ∧
        getParam ccw "brightness_step_pct" = some (.int (-n)) :=
  c2_ccw_negates_cw ⟨"light.office", 5, "light.turn_on", ""⟩ []
    (fun _ => none) (by decide) (by decide)

/-- C3: for every configuration with non-empty `entity_id` and a
`press_service` containing at least one dot, `event_callback` on `DOWN`
issues exactly one backend call, with the entity id, the service name
equal to the substring of `press_service` after the first dot, and
parameters `entity_id` only. -/
theorem c3_press_invokes (a : DialAction) (data : Payload)
    (invoker : ServiceCall → Option PyExc)
    (h1 : a.dial_entity_id ≠ "") (h2 : '.' ∈ a.dial_press_service.toList) :
    (event_callback a .down data invoker).2.calls =
      [{ entity_id := a.dial_entity_id,
         service_name := afterFirstDot a.dial_press_service,
         service_data := [("entity_id", .str a.dial_entity_id)] }] :=
  down_calls_eq a data invoker h1 h2

/-- Witness for C3: the spec's concrete example
`entity_id = "light.living_room"`, `press_service = "light.toggle"`
yields exactly `call("light.living_room", "toggle",
\x7b"entity_id": "light.living_room"\x7d)`. -/
theorem c3_press_invokes_witness :
    (event_callback ⟨"light.living_room", 1, "", "light.toggle"⟩ .down []
        (fun _ => none)).2.calls =
      [{ entity_id := "light.living_room", service_name := "toggle",
         service_data := [("entity_id", .str "light.living_room")] }] :=
  c3_press_invokes ⟨"light.living_room", 1, "", "light.toggle"⟩ []
    (fun _ => none) (by decide) (by decide)

/-- C4: with an empty `entity_id`, no backend call is issued, for every
event kind and every other configuration field value. -/
theorem c4_empty_entity_no_call (a : DialAction) (event : DialEvent)
    (data : Payload) (invoker : ServiceCall → Option PyExc)
    (h : a.dial_entity_id = "") :
    (event_callback a event data invoker).2.calls = [] := by
  simp [event_callback, h, noopResult]

/-- Witness for C4 at a configuration whose other fields are all set. -/
theorem c4_empty_entity_no_call_witness :
    (event_callback ⟨"", 10, "light.turn_on", "light.toggle"⟩ .turnCW []
        (fun _ => none)).2.calls = [] :=
  c4_empty_entity_no_call ⟨"", 10, "light.turn_on", "light.toggle"⟩
    .turnCW [] (fun _ => none) (by decide)

/-- C5 counterexample: with an empty `entity_id`, an unrecognized event
is NOT delegated to the superseding handler — the guard at the top of
`event_callback` returns before the dispatch, so the claim's
"including one with an empty entity_id" fails. -/
theorem c5_counterexample :
    (event_callback ⟨"", 1, "", ""⟩ (.other 0) [("k", .int 7)]
        (fun _ => none)).2.delegated ≠ some (.other 0, [("k", .int 7)]) := by
  decide

/-- C5 amended: for every event kind that is not DOWN, TURN_CW or
TURN_CCW, `event_callback` delegates the event with its payload
unchanged to the superseding default handler whenever `entity_id` is
non-empty, and issues no backend call of its own; with an empty
`entity_id` it neither delegates nor calls. -/
theorem c5_other_event_delegates (a : DialAction) (tag : Nat)
    (data : Payload) (invoker : ServiceCall → Option PyExc) :
    (if a.dial_entity_id = "" then
      (event_callback a (.other tag) data invoker).2.delegated = none
    else
      (event_callback a (.other tag) data invoker).2.delegated =
        some (.other tag, data)) ∧
    (event_callback a (.other tag) data invoker).2.calls = [] := by
  by_cases h : a.dial_entity_id = "" <;>
    simp [event_callback, h, noopResult]

/-- C6: with a non-empty `entity_id` and service strings containing no
dot, each of the three handled events issues no backend call and lets no
exception escape (`ValueError` from the failed unpacking is caught). -/
theorem c6_malformed_service_noop (a : DialAction) (data : Payload)
    (invoker : ServiceCall → Option PyExc)
    (h1 : a.dial_entity_id ≠ "")
    (hp : '.' ∉ a.dial_press_service.toList)
    (ht : '.' ∉ a.dial_turn_service.toList) :
    ((event_callback a .down data invoker).2.calls = [] ∧
      (event_callback a .down data invoker).2.raised = none) ∧
    ((event_callback a .turnCW data invoker).2.calls = [] ∧
      (event_callback a .turnCW data invoker).2.raised = none) ∧
    ((event_callback a .turnCCW data invoker).2.calls = [] ∧
      (event_callback a .turnCCW data invoker).2.raised = none) := by
  refine ⟨?_, ?_, ?_⟩
  · by_cases hps : a.dial_press_service = "" <;>
      simp [event_callback, h1, hps, noopResult, attempt_service,
        splitOnce_eq_none _ _ hp]
  · by_cases hts : a.dial_turn_service = "" <;>
      simp [event_callback, h1, hts, noopResult, attempt_service,
        splitOnce_eq_none _ _ ht]
  · by_cases hts : a.dial_turn_service = "" <;>
      simp [event_callback, h1, hts, noopResult, attempt_service,
        splitOnce_eq_none _ _ ht]

/-- Witness for C6 at the spec's concrete example
`turn_service = "invalidserviceformat"`. -/
theorem c6_malformed_service_noop_witness :
    ((event_callback ⟨"light.office", 10, "invalidserviceformat",
          "alsonodot"⟩ .down [] (fun _ => none)).2.calls = [] ∧
      (event_callback ⟨"light.office", 10, "invalidserviceformat",
          "alsonodot"⟩ .down [] (fun _ => none)).2.raised = none) ∧
    ((event_callback ⟨"light.office", 10, "invalidserviceformat",
          "alsonodot"⟩ .turnCW [] (fun _ => none)).2.calls = [] ∧
      (event_callback ⟨"light.office", 10, "invalidserviceformat",
          "alsonodot"⟩ .turnCW [] (fun _ => none)).2.raised = none) ∧
    ((event_callback ⟨"light.office", 10, "invalidserviceformat",
          "alsonodot"⟩ .turnCCW [] (fun _ => none)).2.calls = [] ∧
      (event_callback ⟨"light.office", 10, "invalidserviceformat",
          "alsonodot"⟩ .turnCCW [] (fun _ => none)).2.raised = none) :=
  c6_malformed_service_noop ⟨"light.office", 10, "invalidserviceformat",
    "alsonodot"⟩ [] (fun _ => none) (by decide) (by decide) (by decide)

/-- C7: `event_callback` is total from the caller's perspective — for
every event, configuration and invoker behavior (including an arbitrary
raised exception), no exception escapes to the caller: the
`except ValueError` and `except Exception` handlers swallow both failure
kinds. -/
theorem c7_total_no_raise (a : DialAction) (event : DialEvent)
    (data : Payload) (invoker : ServiceCall → Option PyExc) :
    (event_callback a event data invoker).2.raised = none := by
  by_cases h : a.dial_entity_id = ""
  · simp [event_callback, h, noopResult]
  · cases event <;>
      simp [event_callback, h, noopResult] <;>
        split <;> simp [noopResult]

/-- Each `try:` block issues at most one backend call: none when the
unpacking raises, exactly one otherwise. -/
theorem attempt_service_calls_length (entity service_str : String)
    (data : List (String × Val)) (invoker : ServiceCall → Option PyExc) :
    (attempt_service entity service_str data invoker).1.length ≤ 1 := by
  unfold attempt_service
  cases splitOnce service_str '.' <;> simp

/-- C8: every `event_callback` run issues at most one backend call,
leaves the four configuration attributes unchanged, and performs no
persisted-settings write. -/
theorem c8_frame (a : DialAction) (event : DialEvent) (data : Payload)
    (invoker : ServiceCall → Option PyExc) :
    (event_callback a event data invoker).1 = a ∧
    (event_callback a event data invoker).2.calls.length ≤ 1 ∧
    (event_callback a event data invoker).2.writes = [] := by
  by_cases h : a.dial_entity_id = ""
  · simp [event_callback, h, noopResult]
  · cases event with
    | down =>
      by_cases hs : a.dial_press_service = "" <;>
        simp [event_callback, h, hs, noopResult,
          attempt_service_calls_length]
    | turnCW =>
      by_cases hs : a.dial_turn_service = "" <;>
        simp [event_callback, h, hs, noopResult,
          attempt_service_calls_length]
    | turnCCW =>
      by_cases hs : a.dial_turn_service = "" <;>
        simp [event_callback, h, hs, noopResult,
          attempt_service_calls_length]
    | other tag => simp [event_callback, h, noopResult]

/-- C10: the malformed-service guard only fires on complete absence of
a dot.  With `turn_service = "light."` (dot present, empty suffix) a
backend call IS issued, with the empty string as the service name; with
`turn_service = "."` the call carries the empty suffix as well. -/
theorem c10_dot_with_empty_suffix_calls :
    (event_callback ⟨"light.office", 1, "light.", ""⟩ .turnCW []
        (fun _ => none)).2.calls =
      [{ entity_id := "light.office", service_name := "",
         service_data :=
           [("entity_id", .str "light.office"),
            ("brightness_step_pct", .int 1)] }] ∧
    (event_callback ⟨"light.office", 1, ".", ""⟩ .turnCW []
        (fun _ => none)).2.calls =
      [{ entity_id := "light.office", service_name := "",
         service_data :=
           [("entity_id", .str "light.office"),
            ("brightness_step_pct", .int 1)] }] := by
  constructor <;> rfl

/-! ### Dict update lemmas, for the persistence claim -/

theorem getSetting_map_update_self (s : Settings) (k : String) (v : Val)
    (h : hasKey s k = true) :
    getSetting (s.map fun p => if p.1 = k then (k, v) else p) k =
      some v := by
  induction s with
  | nil => simp [hasKey] at h
  | cons p ps ih =>
    by_cases hp : p.1 = k
    · simp [getSetting, hp]
    · have hps : hasKey ps k = true := by
        simpa [hasKey, hp] using h
      simp [getSetting, hp, ih hps]

theorem getSetting_map_update_other (s : Settings) (k : String) (v : Val)
    (k' : String) (hk : ¬ k = k') :
    getSetting (s.map fun p => if p.1 = k then (k, v) else p) k' =
      getSetting s k' := by
  induction s with
  | nil => rfl
  | cons p ps ih =>
    by_cases hp : p.1 = k
    · simp [getSetting, hp, hk, ih]
    · simp [getSetting, hp, ih]

theorem getSetting_append (s t : Settings) (k : String) :
    getSetting (s ++ t) k =
      match getSetting s k with
      | some w => some w
      | none => getSetting t k := by
  induction s with
  | nil => rfl
  | cons p ps ih =>
    by_cases hp : p.1 = k <;> simp [getSetting, hp, ih]

theorem getSetting_eq_none_of_not_hasKey (s : Settings) (k : String)
    (h : hasKey s k = false) : getSetting s k = none := by
  induction s with
  | nil => rfl
  | cons p ps ih =>
    simp [hasKey] at h
    simp [getSetting, h.1, ih h.2]

/-- Reading after a dict write: the written key returns the new value,
every other key is untouched. -/
theorem getSetting_setSetting (s : Settings) (k : String) (v : Val)
    (k' : String) :
    getSetting (setSetting s k v) k' =
      if k = k' then some v else getSetting s k' := by
  unfold setSetting
  by_cases hmem : hasKey s k = true
  · rw [if_pos hmem]
    by_cases hkk : k = k'
    · subst hkk
      simp [getSetting_map_update_self s k v hmem]
    · simp [getSetting_map_update_other s k v k' hkk, hkk]
  · have hf : hasKey s k = false := by simpa using hmem
    rw [if_neg hmem, getSetting_append]
    by_cases hkk : k = k'
    · subst hkk
      rw [getSetting_eq_none_of_not_hasKey s k hf]
      simp [getSetting]
    · cases hg : getSetting s k' with
      | some w => simp [hkk]
      | none => simp [getSetting, hkk]

/-- The settings dict written by `_save_dial_settings` holds the four
in-memory attribute values under the four dial keys. -/
theorem getSetting_save_dial (a : DialAction) (s : Settings) :
    getSetting (_save_dial_settings a s) SETTING_DIAL_ENTITY_ID =
      some (.str a.dial_entity_id) ∧
    getSetting (_save_dial_settings a s) SETTING_DIAL_STEP_SIZE =
      some (.int a.dial_step_size) ∧
    getSetting (_save_dial_settings a s) SETTING_DIAL_TURN_SERVICE =
      some (.str a.dial_turn_service) ∧
    getSetting (_save_dial_settings a s) SETTING_DIAL_PRESS_SERVICE =
      some (.str a.dial_press_service) := by
  unfold _save_dial_settings
  refine ⟨?_, ?_, ?_, ?_⟩ <;>
    simp [getSetting_setSetting, SETTING_DIAL_ENTITY_ID,
      SETTING_DIAL_STEP_SIZE, SETTING_DIAL_TURN_SERVICE,
      SETTING_DIAL_PRESS_SERVICE]

/-- Loading right after saving recovers the in-memory configuration:
the persisted copy agrees with the in-memory copy. -/
theorem load_save_dial (a : DialAction) (s : Settings) :
    _load_dial_settings (_save_dial_settings a s) = a := by
  obtain ⟨h1, h2, h3, h4⟩ := getSetting_save_dial a s
  unfold _load_dial_settings getStrSetting getIntSetting
  rw [h1, h2, h3, h4]

/-- C9: each of the four field-change reactions performs exactly one
settings write; the written dict maps the changed field's key to the new
value and the three other keys to their prior values; and loading the
written dict back yields exactly the reaction's new in-memory state. -/
theorem c9_field_change_persists (a : DialAction) (persisted : Settings)
    (s : String) (n : Int) :
    (∃ w, (_on_dial_entity_id_changed a persisted s).2 = [w] ∧
      getSetting w SETTING_DIAL_ENTITY_ID = some (.str s) ∧
      getSetting w SETTING_DIAL_STEP_SIZE =
        some (.int a.dial_step_size) ∧
      getSetting w SETTING_DIAL_TURN_SERVICE =
        some (.str a.dial_turn_service) ∧
      getSetting w SETTING_DIAL_PRESS_SERVICE =
        some (.str a.dial_press_service) ∧
      _load_dial_settings w = (_on_dial_entity_id_changed a persisted s).1) ∧
    (∃ w, (_on_dial_step_size_changed a persisted n).2 = [w] ∧
      getSetting w SETTING_DIAL_ENTITY_ID =
        some (.str a.dial_entity_id) ∧
      getSetting w SETTING_DIAL_STEP_SIZE = some (.int n) ∧
      getSetting w SETTING_DIAL_TURN_SERVICE =
        some (.str a.dial_turn_service) ∧
      getSetting w SETTING_DIAL_PRESS_SERVICE =
        some (.str a.dial_press_service) ∧
      _load_dial_settings w = (_on_dial_step_size_changed a persisted n).1) ∧
    (∃ w, (_on_dial_turn_service_changed a persisted s).2 = [w] ∧
      getSetting w SETTING_DIAL_ENTITY_ID =
        some (.str a.dial_entity_id) ∧
      getSetting w SETTING_DIAL_STEP_SIZE =
        some (.int a.dial_step_size) ∧
      getSetting w SETTING_DIAL_TURN_SERVICE = some (.str s) ∧
      getSetting w SETTING_DIAL_PRESS_SERVICE =
        some (.str a.dial_press_service) ∧
      _load_dial_settings w =
        (_on_dial_turn_service_changed a persisted s).1) ∧
    (∃ w, (_on_dial_press_service_changed a persisted s).2 = [w] ∧
      getSetting w SETTING_DIAL_ENTITY_ID =
        some (.str a.dial_entity_id) ∧
      getSetting w SETTING_DIAL_STEP_SIZE =
        some (.int a.dial_step_size) ∧
      getSetting w SETTING_DIAL_TURN_SERVICE =
        some (.str a.dial_turn_service) ∧
      getSetting w SETTING_DIAL_PRESS_SERVICE = some (.str s) ∧
      _load_dial_settings w =
        (_on_dial_press_service_changed a persisted s).1) := by
  refine ⟨⟨_, rfl, (getSetting_save_dial _ _).1,
      (getSetting_save_dial _ _).2.1, (getSetting_save_dial _ _).2.2.1,
      (getSetting_save_dial _ _).2.2.2, load_save_dial _ _⟩,
    ⟨_, rfl, (getSetting_save_dial _ _).1,
      (getSetting_save_dial _ _).2.1, (getSetting_save_dial _ _).2.2.1,
      (getSetting_save_dial _ _).2.2.2, load_save_dial _ _⟩,
    ⟨_, rfl, (getSetting_save_dial _ _).1,
      (getSetting_save_dial _ _).2.1, (getSetting_save_dial _ _).2.2.1,
      (getSetting_save_dial _ _).2.2.2, load_save_dial _ _⟩,
    ⟨_, rfl, (getSetting_save_dial _ _).1,
      (getSetting_save_dial _ _).2.1, (getSetting_save_dial _ _).2.2.1,
      (getSetting_save_dial _ _).2.2.2, load_save_dial _ _⟩⟩

end DialActionModel
